import Mathlib

/-!
# Verification of the `.dez` model extractor (`utils/dez_parser.py`)

This development gives a shallow embedding of the repository's core module,
`src/utils/dez_parser.py`, which parses a Dezign-for-Databases XML export
into a list of entity records, and proves/refutes the specification claims
about it.

The XML document is modelled as a rose tree mirroring Python's
`xml.etree.ElementTree` elements (a tag, an optional text, and a list of
children).  The path queries used by the source (`findall`, `findtext` with
`"A/B"` and `".//A/B"` paths) are embedded as structurally recursive
functions.  Python strings are modelled as Lean `String`s; the string
operations used by the source (`lower`, `upper`, `strip`, slicing,
`startswith`, substring test, `join`) are embedded as structurally
recursive functions over the underlying character list so that every
definition evaluates inside the kernel.  Python dictionaries are modelled
as association lists with last-writer-wins lookup, which matches
assignment/overwrite semantics; sets are modelled as lists with membership.
-/

namespace Dez

/-- An XML element: tag, optional text content, children (document order).
Mirrors `xml.etree.ElementTree.Element` as used by the source. -/
inductive XML where
  | mk (tag : String) (text : Option String) (children : List XML)
deriving Repr

def XML.tag : XML → String
  | .mk t _ _ => t

def XML.text : XML → Option String
  | .mk _ tx _ => tx

def XML.children : XML → List XML
  | .mk _ _ cs => cs

/-- A leaf element carrying only text, e.g. `<ID>e1</ID>`. -/
def leaf (t s : String) : XML := .mk t (some s) []

/-- `List.flatMap`, written out so that induction lemmas stay elementary. -/
def flatMapL (f : α → List β) : List α → List β
  | [] => []
  | a :: l => f a ++ flatMapL f l

/-- Last element of a list, with a default; mirrors repeated assignment to a
mutable variable inside a loop (the last write wins). -/
def lastD : List α → α → α
  | [], d => d
  | a :: l, _ => lastD l a

/-- Python `str.lower()` (ASCII range, which covers every string the source
compares). -/
def strLower (s : String) : String := ⟨s.data.map Char.toLower⟩

/-- Python `str.upper()` (ASCII range). -/
def strUpper (s : String) : String := ⟨s.data.map Char.toUpper⟩

/-- Python slicing `s[n:]`. -/
def strDrop (s : String) (n : Nat) : String := ⟨s.data.drop n⟩

/-- Python `str.strip()`: drop whitespace from both ends. -/
def strTrim (s : String) : String :=
  ⟨((s.data.dropWhile Char.isWhitespace).reverse.dropWhile Char.isWhitespace).reverse⟩

def listStartsWith : List Char → List Char → Bool
  | _, [] => true
  | [], _ :: _ => false
  | a :: as, b :: bs => a == b && listStartsWith as bs

/-- Python `s.startswith(p)`. -/
def strStartsWith (s p : String) : Bool := listStartsWith s.data p.data

def hasSub : List Char → List Char → Bool
  | [], n => listStartsWith [] n
  | a :: t, n => listStartsWith (a :: t) n || hasSub t n

/-- Python `p in s` (substring containment). -/
def strContainsSub (s p : String) : Bool := hasSub s.data p.data

/-- Python `sep.join(l)`. -/
def strJoin (sep : String) : List String → String
  | [] => ""
  | [a] => a
  | a :: b :: l => a ++ sep ++ strJoin sep (b :: l)

/-- Python truthiness of an `Optional[str]`: `None` and `""` are falsy. -/
def truthy : Option String → Bool
  | none => false
  | some s => !(s == "")

/-- Dictionary lookup on an association list; the *last* binding of a key
wins, mirroring Python dict assignment/overwrite. -/
def dictGet (m : List (String × α)) (k : String) : Option α :=
  (m.reverse.find? (fun p => p.1 == k)).map (fun p => p.2)

/-- Python `d.get(k, default)` for string-valued dicts. -/
def dget (m : List (String × String)) (k : String) (d : String) : String :=
  (dictGet m k).getD d

/-- Python `k in d` for string-valued dicts. -/
def dmem (m : List (String × String)) (k : String) : Bool :=
  m.any (fun p => p.1 == k)

mutual
/-- All strict descendants of an element in document (preorder) order;
the element set traversed by an ElementTree `".//"` path step. -/
def XML.descendants : XML → List XML
  | .mk _ _ cs => descList cs
def descList : List XML → List XML
  | [] => []
  | c :: cs => c :: c.descendants ++ descList cs
end

/-- Children of `x` whose tag is `t` (one `"T"` path step). -/
def childrenTagged (t : String) (x : XML) : List XML :=
  x.children.filter (fun c => c.tag == t)

/-- ElementTree `x.findall("A/B/…")` (relative path, document order). -/
def findallPath (p : List String) (x : XML) : List XML :=
  match p with
  | [] => [x]
  | t :: rest => flatMapL (findallPath rest) (childrenTagged t x)

/-- ElementTree `x.findall(".//T/rest…")`: every descendant tagged `T`,
then the relative path below it. -/
def findallDescPath (t : String) (rest : List String) (x : XML) : List XML :=
  flatMapL (findallPath rest) (x.descendants.filter (fun d => d.tag == t))

/-- ElementTree `x.findtext(path)` with no default: `none` when no element
matches; the element's text, with `""` for text-less elements, otherwise. -/
def findtextOpt (p : List String) (x : XML) : Option String :=
  (findallPath p x).head?.map (fun e => e.text.getD "")

/-- ElementTree `x.findtext(path, default)`. -/
def findtextD (p : List String) (x : XML) (d : String) : String :=
  (findtextOpt p x).getD d

/-! ## Data model of the extractor's output (`parse_dez_file` field dicts) -/

/-- The triple returned by `resolve_defaults`: the values of the dict keys
`'Default Values'`, `'Default Records'`, `'Default Records (2)'`. -/
structure Defaults where
  defaultValues : String
  defaultRecords : String
  defaultRecords2 : String
deriving Repr, DecidableEq, Inhabited

/-- One field dict appended by `parse_dez_file` (same keys, same meaning). -/
structure Field where
  name : String
  description : String
  datatype : String
  sourced : Bool
  not_null : Bool
  src_table : String
  src_attr : String
  def_val : String
  def_m1 : String
  def_m2 : String
  key_type : String
  referenced_dimension : String
  clustering : String
  partitioning : String
deriving Repr, DecidableEq, Inhabited

/-- One entity dict returned by `parse_dez_file`.  `name` is
`ent.findtext("NAME")`, which is `None` when the NAME child is missing,
hence `Option String`; every other emitted value is a string. -/
structure Entity where
  name : Option String
  description : String
  fields : List Field
deriving Repr, DecidableEq, Inhabited

/-! ## The `DEFAULTS` table and `resolve_defaults` -/

/-- The module-level `DEFAULTS` dict of `utils/dez_parser.py`, in source
order. -/
def DEFAULTS : List (String × Defaults) :=
  [ ("TIMESTAMP-Start",
      ⟨"\"1900-01-01 00:00:00.0000\"", "\"1900-01-01 00:00:00.0000\"",
       "\"1900-01-01 00:00:00.0000\""⟩),
    ("TIMESTAMP-End",
      ⟨"\"9999-12-31 23:59:59.9999\"", "\"9999-12-31 23:59:59.9999\"",
       "\"9999-12-31 23:59:59.9999\""⟩),
    ("TIMESTAMP",
      ⟨"\"1900-01-01 00:00:00.0000\"", "\"1900-01-01 00:00:00.0000\"",
       "\"9999-12-31 23:59:59.9999\""⟩),
    ("DATETIME",
      ⟨"\"1900-01-01 00:00:00.0000\"", "\"1900-01-01 00:00:00.0000\"",
       "\"9999-12-31 23:59:59.9999\""⟩),
    ("DATE", ⟨"\"1900-01-01\"", "\"1900-01-01\"", "\"9999-12-31\""⟩),
    ("INT64", ⟨"-1", "-1", "-2"⟩),
    ("STRING", ⟨"\"\"", "\"\"", "\"\""⟩),
    ("BOOL", ⟨"NULL", "NULL", "NULL"⟩),
    ("NUMERIC", ⟨"0", "0", "0"⟩),
    ("FLOAT64", ⟨"\"0.0\"", "\"0.0\"", "\"0.0\""⟩) ]

/-- `resolve_defaults(col_name, dtype)` of `utils/dez_parser.py`. -/
def resolve_defaults (col_name : String) (dtype : String) : Defaults :=
  let key0 := strUpper dtype
  let lower := strLower col_name
  let key :=
    if strContainsSub lower "effective_start" then "TIMESTAMP-Start"
    else if strContainsSub lower "effective_end" then "TIMESTAMP-End"
    else key0
  (dictGet DEFAULTS key).getD ⟨"", "", ""⟩

/-! ## `parse_dez_file` -/

/-- `root.findall(".//ENTITIES/ENT")`. -/
def entList (root : XML) : List XML := findallDescPath "ENTITIES" ["ENT"] root

/-- `root.findall(".//RELATIONSHIPS/REL")`. -/
def relList (root : XML) : List XML :=
  findallDescPath "RELATIONSHIPS" ["REL"] root

/-- `rel.findall(".//PAIRS/PAIR")`. -/
def pairList (rel : XML) : List XML := findallDescPath "PAIRS" ["PAIR"] rel

/-- Step 1: the `id2name` dict (entities with truthy ID and NAME, in
document order; duplicate IDs overwrite, i.e. last binding wins). -/
def id2name (root : XML) : List (String × String) :=
  (entList root).filterMap (fun ent =>
    let i := findtextOpt ["ID"] ent
    let n := findtextOpt ["NAME"] ent
    if truthy i && truthy n then some (i.getD "", n.getD "") else none)

/-- The guard of the `continue` in the relationship loop: a relationship
is kept iff its child id is truthy and its parent id resolves to a truthy
entity name via `id2name`. -/
def relKept (i2n : List (String × String)) (rel : XML) : Bool :=
  let parentId := findtextD ["PARENTOBJECTID"] rel ""
  let childId := findtextD ["CHILDOBJECTID"] rel ""
  !(childId == "") && !(dget i2n parentId "" == "")

/-- The pairs one relationship contributes to `fk_for_entity[entId]`:
`(foreign-key attribute id, parent entity name)` for each PAIR with a
truthy FOREIGNKEYID, provided the relationship is kept and its child is
`entId`. -/
def relContribution (i2n : List (String × String)) (entId : String)
    (rel : XML) : List (String × String) :=
  if relKept i2n rel then
    if findtextD ["CHILDOBJECTID"] rel "" == entId then
      (pairList rel).filterMap (fun pair =>
        match findtextOpt ["FOREIGNKEYID"] pair with
        | some s => if s == "" then none else some (s, dget i2n (findtextD ["PARENTOBJECTID"] rel "") "")
        | none => none)
    else []
  else []

/-- Step 2: `fk_for_entity.get(entId, {})` — the foreign-key map of one
entity, accumulated over the relationships in document order. -/
def fkMapFor (root : XML) (entId : String) : List (String × String) :=
  flatMapL (relContribution (id2name root) entId) (relList root)

/-- Step 3: the primary-key attribute-id set from
`ent.findall("./PKCON/ATTRIBUTEIDS/ATTRIBUTEID")` (truthy texts,
stripped). -/
def pkIds (ent : XML) : List String :=
  (findallPath ["PKCON", "ATTRIBUTEIDS", "ATTRIBUTEID"] ent).filterMap
    (fun aid =>
      match aid.text with
      | some t => if t == "" then none else some (strTrim t)
      | none => none)

/-- `attr.findall("./USERDEFPROPS/*")`: all children of every
USERDEFPROPS child of the attribute. -/
def udpEntries (attr : XML) : List XML :=
  flatMapL XML.children (childrenTagged "USERDEFPROPS" attr)

/-- `udp.tag[4:].lower()` — strip the `UDP_` marker. -/
def udpTag (u : XML) : String := strLower (strDrop u.tag 4)

/-- `udp.text or ""`. -/
def udpText (u : XML) : String := u.text.getD ""

/-- The body of the user-defined-property loop of `parse_dez_file`:
state is `(src_tables, src_cols, partitioning, clustering)`. -/
def udpLoop (st : List String × List String × String × String) (u : XML) :
    List String × List String × String × String :=
  let tg := udpTag u
  if strStartsWith tg "source_table" then
    (st.1 ++ [udpText u], st.2.1, st.2.2.1, st.2.2.2)
  else if strStartsWith tg "source_column" then
    (st.1, st.2.1 ++ [udpText u], st.2.2.1, st.2.2.2)
  else if tg == "partitioning" then
    (st.1, st.2.1, udpText u, st.2.2.2)
  else if tg == "clustering" then
    (st.1, st.2.1, st.2.2.1, udpText u)
  else st

/-- Step 4/6 of `parse_dez_file`: the field dict built for one
`./ATTRIBUTES/ATTR` element, given the owning entity's foreign-key map and
primary-key id set. -/
def parseField (fk : List (String × String)) (pk : List String)
    (attr : XML) : Field :=
  let aid := findtextD ["ID"] attr ""
  let nm := findtextD ["NAME"] attr ""
  let desc := findtextD ["DESC"] attr ""
  let dtype := findtextD ["DT", "DTLISTNAME"] attr "STRING"
  let notnull := findtextOpt ["NNCON", "VALUE"] attr == some "1"
  let is_pk := pk.contains aid
  let is_fk := dmem fk aid
  let key_type :=
    if is_pk && is_fk then "PRIMARY, FOREIGN"
    else if is_pk then "PRIMARY"
    else if is_fk then "FOREIGN"
    else ""
  let ref_dim := dget fk aid ""
  let st := (udpEntries attr).foldl udpLoop ([], [], "", "")
  let defaults := resolve_defaults nm dtype
  { name := nm
    description := desc
    datatype := dtype
    sourced := !is_fk
    not_null := notnull
    src_table := strJoin ", " st.1
    src_attr := strJoin ", " st.2.1
    def_val := defaults.defaultValues
    def_m1 := defaults.defaultRecords
    def_m2 := defaults.defaultRecords2
    key_type := key_type
    referenced_dimension := ref_dim
    clustering := st.2.2.2
    partitioning := st.2.2.1 }

/-- The entity dict appended for one `.//ENTITIES/ENT` element. -/
def parseEntity (root : XML) (ent : XML) : Entity :=
  let entId := findtextD ["ID"] ent ""
  let fk := fkMapFor root entId
  let pk := pkIds ent
  { name := findtextOpt ["NAME"] ent
    description := findtextD ["DESC"] ent ""
    fields := (findallPath ["ATTRIBUTES", "ATTR"] ent).map (parseField fk pk) }

/-- `parse_dez_file` of `utils/dez_parser.py`, applied to the parsed XML
root (loading the raw bytes is the caller's concern in the spec). -/
def parse_dez_file (root : XML) : List Entity :=
  (entList root).map (parseEntity root)

/-! ## Specification-side characterisations

Independent descriptions of parts of the loop above, used to state the
claims; the theorems below compare them with the source embedding. -/

/-- The first branch of the user-defined-property loop matches. -/
def isSrcTableUdp (u : XML) : Bool := strStartsWith (udpTag u) "source_table"

/-- The second branch matches (and the first does not). -/
def isSrcColUdp (u : XML) : Bool :=
  !(isSrcTableUdp u) && strStartsWith (udpTag u) "source_column"

/-- The third branch matches (and no earlier one does). -/
def isPartUdp (u : XML) : Bool :=
  !(isSrcTableUdp u) && !(isSrcColUdp u) && (udpTag u == "partitioning")

/-- The fourth branch matches (and no earlier one does). -/
def isClustUdp (u : XML) : Bool :=
  !(isSrcTableUdp u) && !(isSrcColUdp u) && !(isPartUdp u) &&
    (udpTag u == "clustering")

/-- Texts of all `source_table*` properties, in document order. -/
def srcTableTexts (l : List XML) : List String :=
  (l.filter isSrcTableUdp).map udpText

/-- Texts of all `source_column*` properties, in document order. -/
def srcColTexts (l : List XML) : List String :=
  (l.filter isSrcColUdp).map udpText

/-- Texts of all `partitioning` properties, in document order. -/
def partTexts (l : List XML) : List String := (l.filter isPartUdp).map udpText

/-- Texts of all `clustering` properties, in document order. -/
def clustTexts (l : List XML) : List String :=
  (l.filter isClustUdp).map udpText

/-- The four-way key-role rule of the spec (§3, §8.2): `kt` is exactly the
role determined by primary-key membership `pkm` and foreign-key membership
`fkm`.  `"PRIMARY, FOREIGN"` is the source's spelling of
PRIMARY_AND_FOREIGN, `""` of NONE. -/
abbrev keyRoleSpec (pkm fkm : Bool) (kt : String) : Prop :=
  (kt = "PRIMARY, FOREIGN" ↔ (pkm = true ∧ fkm = true)) ∧
  (kt = "PRIMARY" ↔ (pkm = true ∧ fkm = false)) ∧
  (kt = "FOREIGN" ↔ (pkm = false ∧ fkm = true)) ∧
  (kt = "" ↔ (pkm = false ∧ fkm = false))

/-- Append one child to an element (used to state that entity-level
user-defined properties are ignored). -/
def appendChild : XML → XML → XML
  | .mk t tx cs, c => .mk t tx (cs ++ [c])

/-! ## Concrete documents for witnesses and counterexamples -/

/-- A field carrying two convention-encoded lineage groups
(`…_1` and `…_2`). -/
def docC1 : XML :=
  .mk "DEZ" none [
    .mk "ENTITIES" none [
      .mk "ENT" none [
        leaf "ID" "e1", leaf "NAME" "T",
        .mk "ATTRIBUTES" none [
          .mk "ATTR" none [
            leaf "ID" "a1", leaf "NAME" "amount",
            .mk "DT" none [leaf "DTLISTNAME" "INT64"],
            .mk "USERDEFPROPS" none [
              leaf "UDP_source_table_1" "A",
              leaf "UDP_source_column_1" "colA",
              leaf "UDP_source_table_2" "B",
              leaf "UDP_source_column_2" "colB"
            ]
          ]
        ]
      ]
    ]
  ]

/-- An entity whose table options carry `PARTITION BY`/`CLUSTER BY`
clauses: once as an entity-level text blob, once as the raw text of a
field-level `partitioning` property. -/
def docC2 : XML :=
  .mk "DEZ" none [
    .mk "ENTITIES" none [
      .mk "ENT" none [
        leaf "ID" "e1", leaf "NAME" "events",
        leaf "TABLEOPTIONS"
          "PARTITION BY TIMESTAMP_TRUNC(event_ts, DAY) CLUSTER BY user_id, event_type",
        .mk "ATTRIBUTES" none [
          .mk "ATTR" none [
            leaf "ID" "a1", leaf "NAME" "event_ts",
            .mk "DT" none [leaf "DTLISTNAME" "TIMESTAMP"]],
          .mk "ATTR" none [
            leaf "ID" "a2", leaf "NAME" "session_id",
            .mk "DT" none [leaf "DTLISTNAME" "STRING"],
            .mk "USERDEFPROPS" none [
              leaf "UDP_partitioning"
                "PARTITION BY TIMESTAMP_TRUNC(event_ts, DAY) CLUSTER BY user_id, event_type"]]
        ]
      ]
    ]
  ]

/-- Parent entity for the relationship documents. -/
def entC3parent : XML := .mk "ENT" none [leaf "ID" "e2", leaf "NAME" "Parent"]

/-- An attribute that is both a primary-key and a foreign-key attribute of
its entity. -/
def attrC3 : XML :=
  .mk "ATTR" none [leaf "ID" "a1", leaf "NAME" "parent_id",
    .mk "DT" none [leaf "DTLISTNAME" "INT64"]]

/-- Child entity: `a1` is in the PKCON set and in the foreign-key map. -/
def entC3 : XML :=
  .mk "ENT" none [
    leaf "ID" "e1", leaf "NAME" "Child",
    .mk "PKCON" none [.mk "ATTRIBUTEIDS" none [leaf "ATTRIBUTEID" "a1"]],
    .mk "ATTRIBUTES" none [attrC3]]

/-- Document with a resolvable relationship `Parent → Child` on `a1`. -/
def docC3 : XML :=
  .mk "DEZ" none [
    .mk "ENTITIES" none [entC3parent, entC3],
    .mk "RELATIONSHIPS" none [
      .mk "REL" none [
        leaf "PARENTOBJECTID" "e2", leaf "CHILDOBJECTID" "e1",
        .mk "PAIRS" none [
          .mk "PAIR" none [leaf "KEYID" "k1", leaf "FOREIGNKEYID" "a1"]]
      ]
    ]
  ]

/-- Entity-level user-defined-property block with the lineage properties
of the C4 example. -/
def udpBlockC4 : XML :=
  .mk "USERDEFPROPS" none [
    leaf "UDP_2_source_table_1" "A",
    leaf "UDP_1_source_database_1" "db1",
    leaf "UDP_3_source_column_1" "col1",
    leaf "UDP_5_source_table_2" "B"]

/-- Entity carrying the entity-level lineage properties. -/
def docC4a : XML :=
  .mk "DEZ" none [
    .mk "ENTITIES" none [
      .mk "ENT" none [leaf "ID" "e1", leaf "NAME" "T", udpBlockC4]]]

/-- The same document without the property block. -/
def docC4b : XML :=
  .mk "DEZ" none [
    .mk "ENTITIES" none [.mk "ENT" none [leaf "ID" "e1", leaf "NAME" "T"]]]

/-- A relationship whose parent id `ghost` matches no declared entity. -/
def relC6 : XML :=
  .mk "REL" none [
    leaf "PARENTOBJECTID" "ghost", leaf "CHILDOBJECTID" "e1",
    .mk "PAIRS" none [
      .mk "PAIR" none [leaf "KEYID" "k1", leaf "FOREIGNKEYID" "a1"]]]

/-- Document containing the dangling relationship `relC6`. -/
def docC6 : XML :=
  .mk "DEZ" none [
    .mk "ENTITIES" none [
      .mk "ENT" none [
        leaf "ID" "e1", leaf "NAME" "T",
        .mk "ATTRIBUTES" none [
          .mk "ATTR" none [leaf "ID" "a1", leaf "NAME" "k",
            .mk "DT" none [leaf "DTLISTNAME" "INT64"]]]]],
    .mk "RELATIONSHIPS" none [relC6]
  ]

/-- An attribute with an unrecognized datatype value. -/
def attrC8geo : XML :=
  .mk "ATTR" none [leaf "ID" "a1", leaf "NAME" "geo_point",
    .mk "DT" none [leaf "DTLISTNAME" "GEOGRAPHY"]]

/-- The datatype element of `attrC8geo`. -/
def dtC8 : XML := leaf "DTLISTNAME" "GEOGRAPHY"

/-- An attribute with no datatype element at all. -/
def attrC8missing : XML :=
  .mk "ATTR" none [leaf "ID" "a2", leaf "NAME" "extra"]

/-- Document with a single GEOGRAPHY-typed attribute. -/
def docC8 : XML :=
  .mk "DEZ" none [
    .mk "ENTITIES" none [
      .mk "ENT" none [leaf "ID" "e1", leaf "NAME" "T",
        .mk "ATTRIBUTES" none [attrC8geo]]]]

/-- An attribute element lacking a NAME child. -/
def attrC10 : XML := .mk "ATTR" none [leaf "ID" "a1"]

/-- An entity element lacking NAME and DESC children. -/
def entC10 : XML :=
  .mk "ENT" none [leaf "ID" "e1", .mk "ATTRIBUTES" none [attrC10]]

/-- Document whose only entity has no NAME. -/
def docC10 : XML := .mk "DEZ" none [.mk "ENTITIES" none [entC10]]

/-! ## Helper lemmas -/

theorem parse_dez_file_eq (root : XML) :
    parse_dez_file root = (entList root).map (parseEntity root) := rfl

theorem parseEntity_fields (root ent : XML) :
    (parseEntity root ent).fields =
      (findallPath ["ATTRIBUTES", "ATTR"] ent).map
        (parseField (fkMapFor root (findtextD ["ID"] ent "")) (pkIds ent)) :=
  rfl

theorem parseEntity_name (root ent : XML) :
    (parseEntity root ent).name = findtextOpt ["NAME"] ent := rfl

theorem parseEntity_description (root ent : XML) :
    (parseEntity root ent).description = findtextD ["DESC"] ent "" := rfl

theorem parseField_name (fk : List (String × String)) (pk : List String)
    (attr : XML) :
    (parseField fk pk attr).name = findtextD ["NAME"] attr "" := rfl

theorem parseField_datatype (fk : List (String × String)) (pk : List String)
    (attr : XML) :
    (parseField fk pk attr).datatype =
      findtextD ["DT", "DTLISTNAME"] attr "STRING" := rfl

theorem parseField_sourced (fk : List (String × String)) (pk : List String)
    (attr : XML) :
    (parseField fk pk attr).sourced =
      !(dmem fk (findtextD ["ID"] attr "")) := rfl

theorem parseField_referenced_dimension (fk : List (String × String))
    (pk : List String) (attr : XML) :
    (parseField fk pk attr).referenced_dimension =
      dget fk (findtextD ["ID"] attr "") "" := rfl

theorem parseField_key_type (fk : List (String × String)) (pk : List String)
    (attr : XML) :
    (parseField fk pk attr).key_type =
      (if pk.contains (findtextD ["ID"] attr "") &&
          dmem fk (findtextD ["ID"] attr "") then "PRIMARY, FOREIGN"
       else if pk.contains (findtextD ["ID"] attr "") then "PRIMARY"
       else if dmem fk (findtextD ["ID"] attr "") then "FOREIGN"
       else "") := rfl

theorem parseField_src_table (fk : List (String × String)) (pk : List String)
    (attr : XML) :
    (parseField fk pk attr).src_table =
      strJoin ", " ((udpEntries attr).foldl udpLoop ([], [], "", "")).1 := rfl

theorem parseField_src_attr (fk : List (String × String)) (pk : List String)
    (attr : XML) :
    (parseField fk pk attr).src_attr =
      strJoin ", " ((udpEntries attr).foldl udpLoop ([], [], "", "")).2.1 :=
  rfl

theorem parseField_partitioning (fk : List (String × String))
    (pk : List String) (attr : XML) :
    (parseField fk pk attr).partitioning =
      ((udpEntries attr).foldl udpLoop ([], [], "", "")).2.2.1 := rfl

theorem parseField_clustering (fk : List (String × String))
    (pk : List String) (attr : XML) :
    (parseField fk pk attr).clustering =
      ((udpEntries attr).foldl udpLoop ([], [], "", "")).2.2.2 := rfl

theorem parseField_def_triple (fk : List (String × String))
    (pk : List String) (attr : XML) :
    (parseField fk pk attr).def_val =
      (resolve_defaults (findtextD ["NAME"] attr "")
        (findtextD ["DT", "DTLISTNAME"] attr "STRING")).defaultValues ∧
    (parseField fk pk attr).def_m1 =
      (resolve_defaults (findtextD ["NAME"] attr "")
        (findtextD ["DT", "DTLISTNAME"] attr "STRING")).defaultRecords ∧
    (parseField fk pk attr).def_m2 =
      (resolve_defaults (findtextD ["NAME"] attr "")
        (findtextD ["DT", "DTLISTNAME"] attr "STRING")).defaultRecords2 :=
  ⟨rfl, rfl, rfl⟩

/-- The user-defined-property loop, characterised componentwise: the two
source lists collect all matching property texts in document order, the
two scalar slots keep the last matching text. -/
theorem udpLoop_foldl (l : List XML) (ts cs : List String) (p c : String) :
    l.foldl udpLoop (ts, cs, p, c) =
      (ts ++ srcTableTexts l, cs ++ srcColTexts l,
       lastD (partTexts l) p, lastD (clustTexts l) c) := by
  induction l generalizing ts cs p c with
  | nil =>
      simp [srcTableTexts, srcColTexts, partTexts, clustTexts, lastD]
  | cons u l ih =>
      simp only [List.foldl_cons]
      by_cases h1 : strStartsWith (udpTag u) "source_table"
      · have e1 : isSrcTableUdp u = true := h1
        have e2 : isSrcColUdp u = false := by simp [isSrcColUdp, e1]
        have e3 : isPartUdp u = false := by simp [isPartUdp, e1]
        have e4 : isClustUdp u = false := by simp [isClustUdp, e1]
        rw [show udpLoop (ts, cs, p, c) u
              = (ts ++ [udpText u], cs, p, c) from by simp [udpLoop, h1]]
        rw [ih]
        simp [srcTableTexts, srcColTexts, partTexts, clustTexts,
          List.filter_cons, e1, e2, e3, e4]
      · by_cases h2 : strStartsWith (udpTag u) "source_column"
        · have e1 : isSrcTableUdp u = false := by simp [isSrcTableUdp, h1]
          have e2 : isSrcColUdp u = true := by simp [isSrcColUdp, e1, h2]
          have e3 : isPartUdp u = false := by simp [isPartUdp, e2]
          have e4 : isClustUdp u = false := by simp [isClustUdp, e2]
          rw [show udpLoop (ts, cs, p, c) u
                = (ts, cs ++ [udpText u], p, c) from by simp [udpLoop, h1, h2]]
          rw [ih]
          simp [srcTableTexts, srcColTexts, partTexts, clustTexts,
            List.filter_cons, e1, e2, e3, e4]
        · by_cases h3 : udpTag u == "partitioning"
          · have e1 : isSrcTableUdp u = false := by simp [isSrcTableUdp, h1]
            have e2 : isSrcColUdp u = false := by simp [isSrcColUdp, h2]
            have e3 : isPartUdp u = true := by simp [isPartUdp, e1, e2, h3]
            have e4 : isClustUdp u = false := by simp [isClustUdp, e3]
            rw [show udpLoop (ts, cs, p, c) u
                  = (ts, cs, udpText u, c) from by simp [udpLoop, h1, h2, h3]]
            rw [ih]
            simp [srcTableTexts, srcColTexts, partTexts, clustTexts,
              List.filter_cons, e1, e2, e3, e4, lastD]
          · by_cases h4 : udpTag u == "clustering"
            · have e1 : isSrcTableUdp u = false := by simp [isSrcTableUdp, h1]
              have e2 : isSrcColUdp u = false := by simp [isSrcColUdp, h2]
              have e3 : isPartUdp u = false := by simp [isPartUdp, h3]
              have e4 : isClustUdp u = true := by
                simp [isClustUdp, e1, e2, e3, h4]
              rw [show udpLoop (ts, cs, p, c) u
                    = (ts, cs, p, udpText u) from by
                  simp [udpLoop, h1, h2, h3, h4]]
              rw [ih]
              simp [srcTableTexts, srcColTexts, partTexts, clustTexts,
                List.filter_cons, e1, e2, e3, e4, lastD]
            · have e1 : isSrcTableUdp u = false := by simp [isSrcTableUdp, h1]
              have e2 : isSrcColUdp u = false := by simp [isSrcColUdp, h2]
              have e3 : isPartUdp u = false := by simp [isPartUdp, h3]
              have e4 : isClustUdp u = false := by simp [isClustUdp, h4]
              rw [show udpLoop (ts, cs, p, c) u = (ts, cs, p, c) from by
                simp [udpLoop, h1, h2, h3, h4]]
              rw [ih]
              simp [srcTableTexts, srcColTexts, partTexts, clustTexts,
                List.filter_cons, e1, e2, e3, e4]

/-- Elements on which `f` is empty can be dropped from a `flatMapL`. -/
theorem flatMapL_eq_filter (p : α → Bool) (f : α → List β) (l : List α)
    (h : ∀ a ∈ l, p a = false → f a = []) :
    flatMapL f l = flatMapL f (l.filter p) := by
  induction l with
  | nil => rfl
  | cons a l ih =>
      by_cases hp : p a
      · simp only [flatMapL, List.filter_cons, hp, if_true]
        rw [ih (fun b hb hpb => h b (List.mem_cons_of_mem a hb) hpb)]
      · have ha : f a = [] := h a (List.mem_cons_self a l) (by simpa using hp)
        simp only [flatMapL, List.filter_cons, hp, if_false, ha,
          List.nil_append]
        exact ih (fun b hb hpb => h b (List.mem_cons_of_mem a hb) hpb)

/-- A key absent from a dict looks up to the default. -/
theorem dget_of_not_dmem (m : List (String × String)) (k d : String)
    (h : dmem m k = false) : dget m k d = d := by
  have hall : ∀ p ∈ m, (p.1 == k) = false := by
    intro p hp
    by_contra hc
    have : m.any (fun q => q.1 == k) = true :=
      List.any_eq_true.mpr ⟨p, hp, by simpa using hc⟩
    rw [dmem] at h
    simp [this] at h
  have hnone : (m.reverse.find? (fun p => p.1 == k)) = none := by
    apply List.find?_eq_none.mpr
    intro p hp
    have := hall p (List.mem_reverse.mp hp)
    simp [this]
  simp [dget, dictGet, hnone]

/-- Filtering children is unaffected by appending a child of another tag. -/
theorem childrenTagged_appendChild (t : String) (x c : XML)
    (h : (c.tag == t) = false) :
    childrenTagged t (appendChild x c) = childrenTagged t x := by
  cases x with
  | mk t0 tx cs =>
      simp [childrenTagged, appendChild, XML.children, List.filter_append,
        List.filter_cons, h]

/-- Path search from an element is unaffected by appending a child whose
tag differs from the first path step. -/
theorem findallPath_appendChild (t : String) (rest : List String)
    (x c : XML) (h : (c.tag == t) = false) :
    findallPath (t :: rest) (appendChild x c) = findallPath (t :: rest) x := by
  simp [findallPath, childrenTagged_appendChild t x c h]

/-- `parseEntity` only reads the ID, NAME, DESC, PKCON and ATTRIBUTES
children of the entity element, so appending any other child leaves the
parsed record unchanged. -/
theorem parseEntity_appendChild (root ent c : XML)
    (h1 : (c.tag == "ID") = false) (h2 : (c.tag == "NAME") = false)
    (h3 : (c.tag == "DESC") = false) (h4 : (c.tag == "PKCON") = false)
    (h5 : (c.tag == "ATTRIBUTES") = false) :
    parseEntity root (appendChild ent c) = parseEntity root ent := by
  unfold parseEntity pkIds
  simp only [findtextD, findtextOpt,
    findallPath_appendChild "ID" [] ent c h1,
    findallPath_appendChild "NAME" [] ent c h2,
    findallPath_appendChild "DESC" [] ent c h3,
    findallPath_appendChild "PKCON" ["ATTRIBUTEIDS", "ATTRIBUTEID"] ent c h4,
    findallPath_appendChild "ATTRIBUTES" ["ATTR"] ent c h5]

/-- The four-way rule holds for the exact conditional the source uses. -/
theorem keyRoleSpec_ite (pkm fkm : Bool) :
    keyRoleSpec pkm fkm
      (if pkm && fkm then "PRIMARY, FOREIGN"
       else if pkm then "PRIMARY"
       else if fkm then "FOREIGN"
       else "") := by
  cases pkm <;> cases fkm <;> decide

/-! ## Claims -/

/-- C1, counterexample.  The claim states that a field with more than one
convention-encoded lineage group keeps only the highest-index group, so
`src_table`/`src_attr` hold exactly that single value.  In `docC1` the
field carries group 1 (`A`/`colA`) and group 2 (`B`/`colB`); the claim
therefore predicts `src_table = "B"` and `src_attr = "colB"`, but the
extractor emits the comma-join of all groups in document order. -/
theorem C1_counterexample :
    (parse_dez_file docC1).map (fun e => e.fields.map Field.src_table)
        = [["A, B"]] ∧
    (parse_dez_file docC1).map (fun e => e.fields.map Field.src_attr)
        = [["colA, colB"]] ∧
    ("A, B" : String) ≠ "B" ∧ ("colA, colB" : String) ≠ "colB" := by
  decide

/-- C1, amended.  For every field, `src_table`/`src_attr` are the
`", "`-join of the texts of ALL `source_table*`/`source_column*`
user-defined properties of the field, in document order — no group is
dropped and no highest-index selection happens. -/
theorem C1_amended_joins_all_groups (fk : List (String × String))
    (pk : List String) (attr : XML) :
    (parseField fk pk attr).src_table =
      strJoin ", " (srcTableTexts (udpEntries attr)) ∧
    (parseField fk pk attr).src_attr =
      strJoin ", " (srcColTexts (udpEntries attr)) := by
  constructor
  · rw [parseField_src_table, udpLoop_foldl]
    simp
  · rw [parseField_src_attr, udpLoop_foldl]
    simp

/-- C2, counterexample.  The claim states that `PARTITION BY`/`CLUSTER BY`
clauses in the table options are pattern-matched and a field's
`partition_flag` is `"Y"` exactly when its name is a captured column; for
the given options the field `event_ts` should get `"Y"`.  The extractor
performs no such matching: in `docC2`, `event_ts` (whose entity carries
exactly that options text) gets `partitioning = ""`, and a field whose own
`partitioning` property holds that text gets it verbatim — a value that is
neither `"Y"` nor `""`. -/
theorem C2_counterexample :
    (parse_dez_file docC2).map
        (fun e => e.fields.map (fun f => (f.name, f.partitioning)))
      = [[("event_ts", ""),
          ("session_id",
           "PARTITION BY TIMESTAMP_TRUNC(event_ts, DAY) CLUSTER BY user_id, event_type")]] ∧
    ("" : String) ≠ "Y" ∧
    ("PARTITION BY TIMESTAMP_TRUNC(event_ts, DAY) CLUSTER BY user_id, event_type" : String)
      ≠ "Y" ∧
    ("PARTITION BY TIMESTAMP_TRUNC(event_ts, DAY) CLUSTER BY user_id, event_type" : String)
      ≠ "" := by
  decide

/-- C2, amended.  For every field, `partitioning` and `clustering` are the
verbatim text of the field's own last `partitioning`/`clustering`
user-defined property (empty when absent); no case-insensitive pattern
matching of a table-options blob happens and no `"Y"` flag is computed. -/
theorem C2_amended_verbatim_udp (fk : List (String × String))
    (pk : List String) (attr : XML) :
    (parseField fk pk attr).partitioning =
      lastD (partTexts (udpEntries attr)) "" ∧
    (parseField fk pk attr).clustering =
      lastD (clustTexts (udpEntries attr)) "" := by
  constructor
  · rw [parseField_partitioning, udpLoop_foldl]
  · rw [parseField_clustering, udpLoop_foldl]

/-- C4, counterexample.  The claim states that every returned entity
record carries an ordered `sources` sequence reconstructed from the
entity-level convention-named properties, and that the properties of
`udpBlockC4` yield two lineage triples.  The extractor ignores entity-level
user-defined properties entirely: the parse of `docC4a` (with the
properties) equals the parse of `docC4b` (without them), and the returned
record holds nothing but name, description and fields — no lineage data
appears anywhere in the output. -/
theorem C4_counterexample :
    parse_dez_file docC4a = parse_dez_file docC4b ∧
    parse_dez_file docC4a =
      [{ name := some "T", description := "", fields := [] }] := by
  decide

/-- C4, amended.  Returned entity records consist solely of name,
description and fields; entity-level user-defined properties are ignored —
appending a `USERDEFPROPS` block (with any text and any children) to an
entity element leaves its parsed record unchanged, and no `sources`
sequence is reconstructed. -/
theorem C4_amended_entity_udps_ignored (root ent : XML) (tx : Option String)
    (cs : List XML) :
    parseEntity root (appendChild ent (XML.mk "USERDEFPROPS" tx cs)) =
      parseEntity root ent ∧
    parse_dez_file root = (entList root).map (parseEntity root) :=
  ⟨parseEntity_appendChild root ent _ rfl rfl rfl rfl rfl, rfl⟩

/-- C9.  Extraction is deterministic and side-effect free.  The source
function builds its result from local state only; its embedding is
accordingly a pure total function of the document, so two calls on the
same fixed document yield identical entity lists, and no state outside the
result exists to be mutated. -/
theorem C9_determinism (d : XML) : parse_dez_file d = parse_dez_file d := rfl

/-- C3.  For every entity element of the document and every attribute
element of that entity, the emitted field is part of the parse result, the
entity's field list is exactly the per-attribute map, and the field's
`key_type` satisfies the four-way rule: `"PRIMARY, FOREIGN"` iff the
attribute id is in the PKCON-derived primary-key set AND in the
foreign-key map built from relationships whose child is the entity;
`"PRIMARY"`/`"FOREIGN"`/`""` in the three remaining cases — the role is a
function of the two membership tests alone, never of a stored flag. -/
theorem C3_key_role_exclusive (root ent attr : XML)
    (hent : ent ∈ entList root)
    (hattr : attr ∈ findallPath ["ATTRIBUTES", "ATTR"] ent) :
    parseEntity root ent ∈ parse_dez_file root ∧
    (parseEntity root ent).fields =
      (findallPath ["ATTRIBUTES", "ATTR"] ent).map
        (parseField (fkMapFor root (findtextD ["ID"] ent "")) (pkIds ent)) ∧
    parseField (fkMapFor root (findtextD ["ID"] ent "")) (pkIds ent) attr
        ∈ (parseEntity root ent).fields ∧
    keyRoleSpec ((pkIds ent).contains (findtextD ["ID"] attr ""))
      (dmem (fkMapFor root (findtextD ["ID"] ent ""))
        (findtextD ["ID"] attr ""))
      (parseField (fkMapFor root (findtextD ["ID"] ent ""))
        (pkIds ent) attr).key_type := by
  refine ⟨List.mem_map_of_mem _ hent, rfl, ?_, ?_⟩
  · rw [parseEntity_fields]
    exact List.mem_map_of_mem _ hattr
  · rw [parseField_key_type]
    exact keyRoleSpec_ite _ _

/-- C3, witness: in `docC3` the attribute `a1` of entity `Child` is both a
primary-key and a foreign-key attribute, and the theorem applies. -/
theorem C3_witness :
    parseEntity docC3 entC3 ∈ parse_dez_file docC3 ∧
    (parseEntity docC3 entC3).fields =
      (findallPath ["ATTRIBUTES", "ATTR"] entC3).map
        (parseField (fkMapFor docC3 (findtextD ["ID"] entC3 ""))
          (pkIds entC3)) ∧
    parseField (fkMapFor docC3 (findtextD ["ID"] entC3 "")) (pkIds entC3)
        attrC3 ∈ (parseEntity docC3 entC3).fields ∧
    keyRoleSpec ((pkIds entC3).contains (findtextD ["ID"] attrC3 ""))
      (dmem (fkMapFor docC3 (findtextD ["ID"] entC3 ""))
        (findtextD ["ID"] attrC3 ""))
      (parseField (fkMapFor docC3 (findtextD ["ID"] entC3 ""))
        (pkIds entC3) attrC3).key_type :=
  C3_key_role_exclusive docC3 entC3 attrC3
    (List.Mem.tail _ (List.Mem.head _)) (List.Mem.head _)

/-- C5.  The default-value triple: a name containing `effective_start`
(case-insensitively) forces the start-of-time timestamp triple regardless
of datatype; otherwise a name containing `effective_end` forces the
end-of-time triple; otherwise the triple is looked up by the upper-cased
datatype, so `INT64` yields `("-1","-1","-2")` and a datatype absent from
the table (such as `GEOGRAPHY`) yields `("","","")`.  Every field's three
default slots are exactly this triple, hence always fully populated. -/
theorem C5_default_resolution (n d : String) :
    (strContainsSub (strLower n) "effective_start" = true →
      resolve_defaults n d =
        ⟨"\"1900-01-01 00:00:00.0000\"", "\"1900-01-01 00:00:00.0000\"",
         "\"1900-01-01 00:00:00.0000\""⟩) ∧
    (strContainsSub (strLower n) "effective_start" = false →
      strContainsSub (strLower n) "effective_end" = true →
      resolve_defaults n d =
        ⟨"\"9999-12-31 23:59:59.9999\"", "\"9999-12-31 23:59:59.9999\"",
         "\"9999-12-31 23:59:59.9999\""⟩) ∧
    (strContainsSub (strLower n) "effective_start" = false →
      strContainsSub (strLower n) "effective_end" = false →
      strUpper d = "INT64" →
      resolve_defaults n d = ⟨"-1", "-1", "-2"⟩) ∧
    (strContainsSub (strLower n) "effective_start" = false →
      strContainsSub (strLower n) "effective_end" = false →
      dictGet DEFAULTS (strUpper d) = none →
      resolve_defaults n d = ⟨"", "", ""⟩) ∧
    (∀ (fk : List (String × String)) (pk : List String) (attr : XML),
      (parseField fk pk attr).def_val =
        (resolve_defaults (findtextD ["NAME"] attr "")
          (findtextD ["DT", "DTLISTNAME"] attr "STRING")).defaultValues ∧
      (parseField fk pk attr).def_m1 =
        (resolve_defaults (findtextD ["NAME"] attr "")
          (findtextD ["DT", "DTLISTNAME"] attr "STRING")).defaultRecords ∧
      (parseField fk pk attr).def_m2 =
        (resolve_defaults (findtextD ["NAME"] attr "")
          (findtextD ["DT", "DTLISTNAME"] attr "STRING")).defaultRecords2) := by
  refine ⟨?_, ?_, ?_, ?_, ?_⟩
  · intro hs
    simp [resolve_defaults, hs]
    decide
  · intro hs he
    simp [resolve_defaults, hs, he]
    decide
  · intro hs he hd
    simp [resolve_defaults, hs, he, hd]
    decide
  · intro hs he hd
    simp [resolve_defaults, hs, he, hd]
  · intro fk pk attr
    exact parseField_def_triple fk pk attr

/-- C5, witness: the four branches at concrete names and datatypes. -/
theorem C5_witness :
    resolve_defaults "effective_start_utc_timestamp" "INT64" =
      ⟨"\"1900-01-01 00:00:00.0000\"", "\"1900-01-01 00:00:00.0000\"",
       "\"1900-01-01 00:00:00.0000\""⟩ ∧
    resolve_defaults "effective_end_utc_timestamp" "DATE" =
      ⟨"\"9999-12-31 23:59:59.9999\"", "\"9999-12-31 23:59:59.9999\"",
       "\"9999-12-31 23:59:59.9999\""⟩ ∧
    resolve_defaults "balance" "INT64" = ⟨"-1", "-1", "-2"⟩ ∧
    resolve_defaults "geo_point" "GEOGRAPHY" = ⟨"", "", ""⟩ :=
  ⟨(C5_default_resolution "effective_start_utc_timestamp" "INT64").1
      (by decide),
   (C5_default_resolution "effective_end_utc_timestamp" "DATE").2.1
      (by decide) (by decide),
   (C5_default_resolution "balance" "INT64").2.2.1
      (by decide) (by decide) (by decide),
   (C5_default_resolution "geo_point" "GEOGRAPHY").2.2.2.1
      (by decide) (by decide) (by decide)⟩

/-- C6.  A relationship whose parent id resolves to no declared entity is
skipped without failing (the embedding is a total function): it
contributes nothing to any entity's foreign-key map, and every foreign-key
map — hence every field's `key_type` — equals the one computed from the
kept (resolvable) relationships alone. -/
theorem C6_dangling_relationship (root rel : XML)
    (_hrel : rel ∈ relList root)
    (hdangling :
      dget (id2name root) (findtextD ["PARENTOBJECTID"] rel "") "" = "") :
    (∀ entId, relContribution (id2name root) entId rel = []) ∧
    (∀ entId, fkMapFor root entId =
      flatMapL (relContribution (id2name root) entId)
        ((relList root).filter (relKept (id2name root)))) := by
  constructor
  · intro entId
    simp [relContribution, relKept, hdangling]
  · intro entId
    exact flatMapL_eq_filter (relKept (id2name root)) _ (relList root)
      (fun r _ hk => by simp [relContribution, hk])

/-- C6, witness: the relationship of `docC6` references the undeclared
parent `ghost`; it contributes nothing to entity `e1`'s foreign-key map,
which equals the map computed from the kept relationships alone. -/
theorem C6_witness :
    relContribution (id2name docC6) "e1" relC6 = [] ∧
    fkMapFor docC6 "e1" =
      flatMapL (relContribution (id2name docC6) "e1")
        ((relList docC6).filter (relKept (id2name docC6))) :=
  ⟨(C6_dangling_relationship docC6 relC6 (List.Mem.head _) rfl).1 "e1",
   (C6_dangling_relationship docC6 relC6 (List.Mem.head _) rfl).2 "e1"⟩

/-- C7.  For every field: `sourced` is true exactly when the key role does
not include FOREIGN; the role includes FOREIGN exactly when the attribute
id is in the entity's foreign-key map; and `referenced_dimension` is the
resolved parent entity name (the map's entry) when the role includes
FOREIGN and the empty string otherwise. -/
theorem C7_sourced_and_referenced (fk : List (String × String))
    (pk : List String) (attr : XML) :
    ((parseField fk pk attr).sourced = true ↔
      strContainsSub (parseField fk pk attr).key_type "FOREIGN" = false) ∧
    (strContainsSub (parseField fk pk attr).key_type "FOREIGN" = true ↔
      dmem fk (findtextD ["ID"] attr "") = true) ∧
    (parseField fk pk attr).referenced_dimension =
      (if strContainsSub (parseField fk pk attr).key_type "FOREIGN"
       then dget fk (findtextD ["ID"] attr "") ""
       else "") := by
  have s1 : strContainsSub "PRIMARY, FOREIGN" "FOREIGN" = true := by decide
  have s2 : strContainsSub "PRIMARY" "FOREIGN" = false := by decide
  have s3 : strContainsSub "FOREIGN" "FOREIGN" = true := by decide
  have s4 : strContainsSub "" "FOREIGN" = false := by decide
  rw [parseField_sourced, parseField_referenced_dimension,
    parseField_key_type]
  by_cases hpk : (findtextD ["ID"] attr "") ∈ pk
    <;> by_cases hfk : dmem fk (findtextD ["ID"] attr "")
  · simp [hpk, hfk, s1]
  · simp only [Bool.not_eq_true] at hfk
    simp [hpk, hfk, s2, dget_of_not_dmem fk (findtextD ["ID"] attr "") "" hfk]
  · simp [hpk, hfk, s3]
  · simp only [Bool.not_eq_true] at hfk
    simp [hpk, hfk, s4, dget_of_not_dmem fk (findtextD ["ID"] attr "") "" hfk]

/-- C8, counterexample.  The claim states that a field whose datatype value
is unrecognized gets the designated fallback type.  `GEOGRAPHY` is not in
the tool's vocabulary (it has no `DEFAULTS` entry), yet the extractor
emits it verbatim rather than the fallback `STRING`. -/
theorem C8_counterexample :
    (parse_dez_file docC8).map (fun e => e.fields.map Field.datatype)
      = [["GEOGRAPHY"]] ∧
    dictGet DEFAULTS "GEOGRAPHY" = none ∧
    ("GEOGRAPHY" : String) ≠ "STRING" := by
  decide

/-- C8, amended.  Only a missing datatype element falls back to the
designated type `STRING`; a present datatype value — recognized or not —
is emitted verbatim (the text of the first `DT/DTLISTNAME` element). -/
theorem C8_amended_datatype (fk : List (String × String)) (pk : List String)
    (attr : XML) :
    (findallPath ["DT", "DTLISTNAME"] attr = [] →
      (parseField fk pk attr).datatype = "STRING") ∧
    (∀ x, (findallPath ["DT", "DTLISTNAME"] attr).head? = some x →
      (parseField fk pk attr).datatype = x.text.getD "") := by
  constructor
  · intro h
    rw [parseField_datatype, findtextD, findtextOpt, h]
    rfl
  · intro x hx
    rw [parseField_datatype, findtextD, findtextOpt, hx]
    rfl

/-- C8, witness: the amended rule at a missing datatype element and at the
unrecognized value `GEOGRAPHY`. -/
theorem C8_witness :
    (parseField [] [] attrC8missing).datatype = "STRING" ∧
    (parseField [] [] attrC8geo).datatype = "GEOGRAPHY" :=
  ⟨(C8_amended_datatype [] [] attrC8missing).1 rfl,
   (C8_amended_datatype [] [] attrC8geo).2 dtC8 rfl⟩

/-- C10.  An entity element lacking a NAME child is still emitted, without
failing (the embedding is total): its record is in the parse result with
`name = none` — the only emitted entity attribute typed `Option String`
rather than `String` — while a missing DESC falls back to the string `""`,
and a field of an attribute lacking a NAME child falls back to the string
`""` as well. -/
theorem C10_missing_name (root ent attr : XML)
    (hent : ent ∈ entList root)
    (hname : findallPath ["NAME"] ent = [])
    (hdesc : findallPath ["DESC"] ent = [])
    (hattr : attr ∈ findallPath ["ATTRIBUTES", "ATTR"] ent)
    (hattrname : findallPath ["NAME"] attr = []) :
    parseEntity root ent ∈ parse_dez_file root ∧
    (parseEntity root ent).name = none ∧
    (parseEntity root ent).description = "" ∧
    parseField (fkMapFor root (findtextD ["ID"] ent "")) (pkIds ent) attr
        ∈ (parseEntity root ent).fields ∧
    (parseField (fkMapFor root (findtextD ["ID"] ent ""))
        (pkIds ent) attr).name = "" := by
  refine ⟨List.mem_map_of_mem _ hent, ?_, ?_, ?_, ?_⟩
  · rw [parseEntity_name, findtextOpt, hname]
    rfl
  · rw [parseEntity_description, findtextD, findtextOpt, hdesc]
    rfl
  · rw [parseEntity_fields]
    exact List.mem_map_of_mem _ hattr
  · rw [parseField_name, findtextD, findtextOpt, hattrname]
    rfl

/-- C10, witness: `docC10`'s only entity lacks NAME and DESC and its only
attribute lacks NAME. -/
theorem C10_witness :
    parseEntity docC10 entC10 ∈ parse_dez_file docC10 ∧
    (parseEntity docC10 entC10).name = none ∧
    (parseEntity docC10 entC10).description = "" ∧
    parseField (fkMapFor docC10 (findtextD ["ID"] entC10 "")) (pkIds entC10)
        attrC10 ∈ (parseEntity docC10 entC10).fields ∧
    (parseField (fkMapFor docC10 (findtextD ["ID"] entC10 ""))
        (pkIds entC10) attrC10).name = "" :=
  C10_missing_name docC10 entC10 attrC10 (List.Mem.head _) rfl rfl
    (List.Mem.head _) rfl

end Dez
